import Mathlib

/-!
Shallow embedding of `backend/api/calendly_integration.py`
(medical-appointment scheduler: slot generation and booking ledger).

Time is modelled at minute resolution, the resolution at which the module
observes and stores time: every ledger key, slot label and duration in the
source is a `"%Y-%m-%d %H:%M"` / `"%H:%M"` string or a minute count, and the
`datetime.now().replace(second=0, microsecond=0)` truncations erase finer
detail.  An absolute datetime is a `Nat`: `day * 1440 + minuteOfDay`, where
`day` is the index of the calendar date (the injective image of a well-formed
`YYYY-MM-DD` string).  `datetime.now().date()` becomes `now / 1440`,
`current_time.time()` becomes `t % 1440`, and `datetime` arithmetic (which
rolls dates over automatically) becomes plain `Nat` arithmetic.

The module-level dict `booked_appointments` is passed explicitly as a value
(`Ledger`); `datetime.now()` is passed as the `now : Nat` argument; the random
`generate_booking_id` / `generate_confirmation_code` results are passed as
arguments to `book_appointment`.  Python's while-loops step by a positive
amount from `cur` toward `stop`, so they run at most `stop - cur` iterations;
the structurally recursive `*_aux` functions take exactly that bound as fuel,
which therefore never runs out before the loop guard fails.
-/

namespace MedSched

/-- `PatientInfo` pydantic model. -/
structure PatientInfo where
  name : String
  email : String
  phone : String
deriving DecidableEq, Repr

/-- The occupancy record stored under each granule key by `book_appointment`. -/
structure BookingRecord where
  booking_id : String
  patient : PatientInfo
  appointment_type : String
  reason : Option String
deriving DecidableEq, Repr

/-- The `booked_appointments` dict: keys are minute-resolution datetimes
(the `"%Y-%m-%d %H:%M"` strings, encoded as absolute minutes).  Insertion
conses; lookup takes the first (most recent) match, matching dict
assignment/lookup observationally. -/
abbrev Ledger := List (Nat × BookingRecord)

/-- `key in booked_appointments`. -/
def ledgerContains (L : Ledger) (k : Nat) : Bool :=
  L.any (fun e => e.1 == k)

/-- `booked_appointments[key]` (as an `Option`). -/
def ledgerLookup (L : Ledger) (k : Nat) : Option BookingRecord :=
  (L.find? (fun e => e.1 == k)).map (fun e => e.2)

/-- `booked_appointments[key] = record`. -/
def ledgerInsert (L : Ledger) (k : Nat) (v : BookingRecord) : Ledger :=
  (k, v) :: L

/-- `BUSINESS_HOURS["start"]` = `time(9, 0)`, as minutes of the day. -/
def BUSINESS_HOURS_start : Nat := 9 * 60

/-- `BUSINESS_HOURS["end"]` = `time(17, 0)`, as minutes of the day. -/
def BUSINESS_HOURS_end : Nat := 17 * 60

/-- The `APPOINTMENT_TYPES` catalog: name → duration in minutes. -/
def APPOINTMENT_TYPES (t : String) : Option Nat :=
  if t = "consultation" then some 30
  else if t = "followup" then some 15
  else if t = "physical" then some 45
  else if t = "specialist" then some 60
  else none

/-- The `TimeSlot` pydantic model.  The source stores the two times as
`"%H:%M"` strings of `current_time` and `slot_end`; here they are kept as the
absolute minute values those datetimes format. -/
structure TimeSlot where
  start_time : Nat
  end_time : Nat
  available : Bool
deriving DecidableEq, Repr

/-- The today-branch rounding in `generate_time_slots`: round `now` up to the
next 15-minute boundary (`minutes = ((minutes // 15) + 1) * 15`, with the
`minutes == 60` hour carry); a minute already on a multiple of 15 is kept
(`replace(second=0, microsecond=0)` is the identity at minute resolution). -/
def round_up_15 (now : Nat) : Nat :=
  if now % 60 % 15 ≠ 0 then
    if (now % 60 / 15 + 1) * 15 = 60 then (now / 60) * 60 + 60
    else (now / 60) * 60 + (now % 60 / 15 + 1) * 15
  else
    (now / 60) * 60 + now % 60

/-- The slot-generation while-loop of `generate_time_slots`:
`while current_time + duration <= end_time`, emitting one `TimeSlot` whose
availability is `slot_key not in booked_appointments` (only the slot's own
start key is consulted), then `current_time += duration`.  Structural on
fuel; `slot_loop` supplies fuel `stop - cur`, enough for every iteration
(each step advances `cur` by `dur ≥ 1`).  A zero `dur` would loop forever in
the source; catalog durations are positive, and the `0 < dur` guard makes
that unreachable case return `[]`. -/
def slot_loop_aux (L : Ledger) : Nat → Nat → Nat → Nat → List TimeSlot
  | 0, _, _, _ => []
  | fuel + 1, cur, stop, dur =>
    if 0 < dur ∧ cur + dur ≤ stop then
      { start_time := cur, end_time := cur + dur,
        available := ! ledgerContains L cur } :: slot_loop_aux L fuel (cur + dur) stop dur
    else []

/-- The slot-generation loop at its natural fuel. -/
def slot_loop (L : Ledger) (cur stop dur : Nat) : List TimeSlot :=
  slot_loop_aux L (stop - cur) cur stop dur

/-- The initial `current_time` of the generation loop in
`generate_time_slots`: `datetime.combine(date, BUSINESS_HOURS["start"])`,
replaced — when `date == now.date()` — by `now` rounded up to the next
15-minute boundary, and pulled back to business-hours start when that
boundary's time-of-day (`current_time.time()`) is before it. -/
def slot_start0 (date now : Nat) : Nat :=
  if date = now / 1440 then
    let r := round_up_15 now
    if r % 1440 < BUSINESS_HOURS_start then date * 1440 + BUSINESS_HOURS_start
    else r
  else date * 1440 + BUSINESS_HOURS_start

/-- `generate_time_slots(date_str, appointment_duration)`.  `date` is the day
index of the parsed (well-formed) date string, `now` is `datetime.now()` in
absolute minutes, `L` is the module-level `booked_appointments`. -/
def generate_time_slots (L : Ledger) (date : Nat) (appointment_duration : Nat)
    (now : Nat) : List TimeSlot :=
  if date < now / 1440 then []
  else
    slot_loop L (slot_start0 date now) (date * 1440 + BUSINESS_HOURS_end)
      appointment_duration

/-- The granule-enumeration loop shared by `is_slot_available` (read) and
`book_appointment` (write): `check_time = start; while check_time < end:
...; check_time += timedelta(minutes=15)`.  Structural on fuel;
`granule_starts` supplies fuel `stop - cur`, enough for every iteration
(each step advances `cur` by 15). -/
def granule_starts_aux : Nat → Nat → Nat → List Nat
  | 0, _, _ => []
  | fuel + 1, cur, stop =>
    if cur < stop then cur :: granule_starts_aux fuel (cur + 15) stop
    else []

/-- The 15-minute granule start points covering `[cur, stop)` from `cur`. -/
def granule_starts (cur stop : Nat) : List Nat :=
  granule_starts_aux (stop - cur) cur stop

/-- `is_slot_available(date, start_time, duration)`: true iff no enumerated
granule key is in `booked_appointments` (the loop's early `return False`
is `List.all`). `start` is the parsed `f"{date} {start_time}"` in absolute
minutes. -/
def is_slot_available (L : Ledger) (start : Nat) (duration : Nat) : Bool :=
  (granule_starts start (start + duration)).all (fun g => ! ledgerContains L g)

/-- The distinct failure modes of `book_appointment` (each a `raise` in the
source: `KeyError` on an unknown type, `"Cannot book appointments in the
past"`, `"The selected time slot is no longer available"`). -/
inductive BookError where
  | invalidAppointmentType
  | pastDateTime
  | slotUnavailable
deriving DecidableEq, Repr

/-- The `BookingRequest` pydantic model; `start_dt` is the parsed
`f"{booking.date} {booking.start_time}"` in absolute minutes. -/
structure BookingRequest where
  appointment_type : String
  start_dt : Nat
  patient : PatientInfo
  reason : Option String
deriving DecidableEq, Repr

/-- The `BookingResponse` pydantic model (the `details` dict flattened;
date/start/end strings kept as the absolute minutes they format). -/
structure BookingResponse where
  booking_id : String
  status : String
  confirmation_code : String
  patient : PatientInfo
  appointment_type : String
  start_dt : Nat
  end_dt : Nat
  duration_minutes : Nat
  reason : Option String
deriving DecidableEq, Repr

/-- The booking write-loop: one `booked_appointments[key] = record` per
enumerated granule, in order. -/
def write_granules (L : Ledger) (gs : List Nat) (rcd : BookingRecord) : Ledger :=
  gs.foldl (fun acc g => ledgerInsert acc g rcd) L

/-- `book_appointment(booking)`.  Returns the updated ledger together with
the result; the error paths `raise` before any write, so they return the
ledger unchanged.  `bid`/`code` stand for the random
`generate_booking_id()` / `generate_confirmation_code()` results. -/
def book_appointment (L : Ledger) (now : Nat) (req : BookingRequest)
    (bid code : String) : Ledger × Except BookError BookingResponse :=
  match APPOINTMENT_TYPES req.appointment_type with
  | none => (L, .error .invalidAppointmentType)
  | some duration =>
    if req.start_dt < now then (L, .error .pastDateTime)
    else if ! is_slot_available L req.start_dt duration then
      (L, .error .slotUnavailable)
    else
      let rcd : BookingRecord :=
        { booking_id := bid, patient := req.patient,
          appointment_type := req.appointment_type, reason := req.reason }
      let L2 := write_granules L
        (granule_starts req.start_dt (req.start_dt + duration)) rcd
      (L2, .ok
        { booking_id := bid, status := "confirmed", confirmation_code := code,
          patient := req.patient, appointment_type := req.appointment_type,
          start_dt := req.start_dt, end_dt := req.start_dt + duration,
          duration_minutes := duration, reason := req.reason })

/-! ### Concrete sample data (used by concrete theorems below)

Absolute minutes: day 1 at `HH:MM` is `1440 + 60*HH + MM`; with `now = 0`
(day 0, midnight), day 1 is strictly in the future. -/

/-- A sample patient. -/
def pA : PatientInfo := { name := "Alice", email := "alice@example.com", phone := "555-0100" }

/-- A second sample patient. -/
def pB : PatientInfo := { name := "Bob", email := "bob@example.com", phone := "555-0101" }

/-- A sample occupancy record. -/
def rcd0 : BookingRecord :=
  { booking_id := "APPT-20260101-1111", patient := pA,
    appointment_type := "consultation", reason := none }

/-- A ledger whose only occupied granule is day 1, 09:15 (minute 1995). -/
def c1_ledger : Ledger := [(1995, rcd0)]

/-- A consultation (30 min) request for day 1, 09:00 (minute 1980). -/
def c2_req1 : BookingRequest :=
  { appointment_type := "consultation", start_dt := 1980, patient := pA, reason := none }

/-- A followup (15 min) request for day 1, 09:20 (minute 2000) — overlaps
`[1980, 2010)` but is not 15-minute aligned. -/
def c2_req2 : BookingRequest :=
  { appointment_type := "followup", start_dt := 2000, patient := pB,
    reason := some "checkup" }

/-- A followup (15 min) request for day 1, 09:15 (minute 1995) — overlaps
`[1980, 2010)` and is 15-minute aligned. -/
def c2_req3 : BookingRequest :=
  { appointment_type := "followup", start_dt := 1995, patient := pB, reason := none }

/-- A consultation (30 min) request for day 1, 09:15 (minute 1995). -/
def c3_req : BookingRequest :=
  { appointment_type := "consultation", start_dt := 1995, patient := pA, reason := none }

/-- The ledger after booking `c3_req` on the empty ledger. -/
def c3_after : Ledger := (book_appointment [] 0 c3_req "APPT-C" "CCCCCC").1

/-- A specialist (60 min) request for day 1, 23:00 (minute 2820) — entirely
outside business hours. -/
def c10_req : BookingRequest :=
  { appointment_type := "specialist", start_dt := 2820, patient := pB, reason := none }

/-! ### Granule enumeration -/

/-- Membership in the granule loop's output, at any sufficient fuel: exactly
the points of `[cur, stop)` reachable from `cur` in 15-minute steps. -/
theorem mem_granule_starts_aux (fuel : Nat) : ∀ cur stop g : Nat,
    stop - cur ≤ fuel →
    (g ∈ granule_starts_aux fuel cur stop ↔ cur ≤ g ∧ g < stop ∧ 15 ∣ (g - cur)) := by
  induction fuel with
  | zero =>
    intro cur stop g h
    simp only [granule_starts_aux, List.not_mem_nil, false_iff]
    omega
  | succ fuel ih =>
    intro cur stop g h
    simp only [granule_starts_aux]
    by_cases hc : cur < stop
    · simp only [if_pos hc, List.mem_cons]
      rw [ih (cur + 15) stop g (by omega)]
      omega
    · simp only [if_neg hc, List.not_mem_nil, false_iff]
      omega

/-- Membership in `granule_starts cur stop`. -/
theorem mem_granule_starts (cur stop g : Nat) :
    g ∈ granule_starts cur stop ↔ cur ≤ g ∧ g < stop ∧ 15 ∣ (g - cur) :=
  mem_granule_starts_aux (stop - cur) cur stop g le_rfl

/-! ### Ledger -/

/-- `ledgerContains` after one insertion. -/
theorem ledgerContains_insert (L : Ledger) (k : Nat) (v : BookingRecord)
    (k' : Nat) :
    ledgerContains (ledgerInsert L k v) k' = ((k == k') || ledgerContains L k') := by
  simp [ledgerContains, ledgerInsert]

/-- A key is in the ledger after the booking write-loop iff it is one of the
written granules or was there before. -/
theorem ledgerContains_write_granules (gs : List Nat) : ∀ L : Ledger,
    ∀ rcd : BookingRecord, ∀ k : Nat,
    (ledgerContains (write_granules L gs rcd) k = true ↔
      k ∈ gs ∨ ledgerContains L k = true) := by
  induction gs with
  | nil => intro L rcd k; simp [write_granules]
  | cons g gs ih =>
    intro L rcd k
    simp only [write_granules, List.foldl_cons] at *
    rw [ih (ledgerInsert L g rcd) rcd k]
    simp only [ledgerContains_insert, Bool.or_eq_true, beq_iff_eq, List.mem_cons]
    tauto

/-- A key not among the written granules keeps its previous lookup result. -/
theorem ledgerLookup_write_granules_of_not_mem (gs : List Nat) : ∀ L : Ledger,
    ∀ rcd : BookingRecord, ∀ k : Nat, k ∉ gs →
    ledgerLookup (write_granules L gs rcd) k = ledgerLookup L k := by
  induction gs with
  | nil => intro L rcd k _; simp [write_granules]
  | cons g gs ih =>
    intro L rcd k hk
    simp only [List.mem_cons, not_or] at hk
    simp only [write_granules, List.foldl_cons] at *
    rw [ih (ledgerInsert L g rcd) rcd k hk.2]
    simp [ledgerLookup, ledgerInsert, List.find?_cons, beq_iff_eq, hk.1,
      Ne.symm hk.1]

/-- Every written granule holds the written record after the write-loop. -/
theorem ledgerLookup_write_granules_of_mem (gs : List Nat) : ∀ L : Ledger,
    ∀ rcd : BookingRecord, ∀ k : Nat, k ∈ gs →
    ledgerLookup (write_granules L gs rcd) k = some rcd := by
  induction gs with
  | nil => intro L rcd k hk; simp at hk
  | cons g gs ih =>
    intro L rcd k hk
    simp only [write_granules, List.foldl_cons]
    by_cases hmem : k ∈ gs
    · exact ih (ledgerInsert L g rcd) rcd k hmem
    · have hkg : k = g := by
        rcases List.mem_cons.1 hk with h | h
        · exact h
        · exact absurd h hmem
      subst hkg
      show ledgerLookup (write_granules (ledgerInsert L k rcd) gs rcd) k = some rcd
      rw [ledgerLookup_write_granules_of_not_mem gs (ledgerInsert L k rcd) rcd k hmem]
      simp [ledgerLookup, ledgerInsert]

/-! ### Availability -/

/-- `is_slot_available` in terms of individual granules. -/
theorem is_slot_available_iff (L : Ledger) (s d : Nat) :
    is_slot_available L s d = true ↔
      ∀ g, s ≤ g → g < s + d → 15 ∣ (g - s) → ledgerContains L g = false := by
  simp only [is_slot_available, List.all_eq_true, mem_granule_starts,
    Bool.not_eq_true', and_imp]

/-- One occupied reachable granule makes `is_slot_available` false. -/
theorem is_slot_available_eq_false (L : Ledger) (s d g : Nat)
    (h1 : s ≤ g) (h2 : g < s + d) (h3 : 15 ∣ (g - s))
    (h4 : ledgerContains L g = true) : is_slot_available L s d = false := by
  cases hE : is_slot_available L s d with
  | false => rfl
  | true =>
    rw [is_slot_available_iff] at hE
    rw [hE g h1 h2 h3] at h4
    exact h4.symm

/-! ### The slot-generation loop -/

/-- Invariant of every emitted slot, at any fuel: availability is decided by
the slot's own start key alone, and the slot's window fits between the loop
cursor and the loop bound. -/
theorem slot_loop_aux_mem (L : Ledger) (stop dur : Nat) (fuel : Nat) :
    ∀ cur : Nat, ∀ s ∈ slot_loop_aux L fuel cur stop dur,
    s.available = ! ledgerContains L s.start_time ∧ cur ≤ s.start_time ∧
      s.end_time = s.start_time + dur ∧ s.start_time + dur ≤ stop := by
  induction fuel with
  | zero => intro cur s hs; simp [slot_loop_aux] at hs
  | succ fuel ih =>
    intro cur s hs
    simp only [slot_loop_aux] at hs
    by_cases hc : 0 < dur ∧ cur + dur ≤ stop
    · rw [if_pos hc, List.mem_cons] at hs
      rcases hs with h | h
      · subst h
        exact ⟨rfl, le_rfl, rfl, hc.2⟩
      · obtain ⟨ha, hle, he, hb⟩ := ih (cur + dur) s h
        exact ⟨ha, by omega, he, hb⟩
    · rw [if_neg hc] at hs
      simp at hs

/-- The head of the loop's output, when there is one, starts at the cursor. -/
theorem slot_loop_aux_head (L : Ledger) (stop dur fuel cur : Nat)
    (s : TimeSlot) (h : (slot_loop_aux L fuel cur stop dur).head? = some s) :
    s.start_time = cur := by
  cases fuel with
  | zero => simp [slot_loop_aux] at h
  | succ fuel =>
    simp only [slot_loop_aux] at h
    by_cases hc : 0 < dur ∧ cur + dur ≤ stop
    · rw [if_pos hc] at h
      simp only [List.head?_cons, Option.some.injEq] at h
      rw [← h]
    · rw [if_neg hc] at h
      simp at h

/-- Consecutive emitted slots are exactly `dur` minutes apart. -/
theorem slot_loop_aux_chain_step (L : Ledger) (stop dur : Nat) (fuel : Nat) :
    ∀ cur : Nat, List.Chain'
      (fun a b : TimeSlot => b.start_time = a.start_time + dur)
      (slot_loop_aux L fuel cur stop dur) := by
  induction fuel with
  | zero => intro cur; simp [slot_loop_aux]
  | succ fuel ih =>
    intro cur
    simp only [slot_loop_aux]
    by_cases hc : 0 < dur ∧ cur + dur ≤ stop
    · rw [if_pos hc]
      refine List.chain'_cons'.2 ⟨?_, ih (cur + dur)⟩
      intro b hb
      rw [slot_loop_aux_head L stop dur fuel (cur + dur) b hb]
    · rw [if_neg hc]; simp

/-- Emitted slots are strictly ascending by start time. -/
theorem slot_loop_aux_chain_lt (L : Ledger) (stop dur : Nat) (fuel : Nat) :
    ∀ cur : Nat, List.Chain'
      (fun a b : TimeSlot => a.start_time < b.start_time)
      (slot_loop_aux L fuel cur stop dur) := by
  induction fuel with
  | zero => intro cur; simp [slot_loop_aux]
  | succ fuel ih =>
    intro cur
    simp only [slot_loop_aux]
    by_cases hc : 0 < dur ∧ cur + dur ≤ stop
    · rw [if_pos hc]
      refine List.chain'_cons'.2 ⟨?_, ih (cur + dur)⟩
      intro b hb
      rw [slot_loop_aux_head L stop dur fuel (cur + dur) b hb]
      simp only []
      omega
    · rw [if_neg hc]; simp

/-! ### The initial cursor of slot generation -/

/-- Rounding up to a 15-minute boundary never goes below the start of the
current hour. -/
theorem round_up_15_lower (now : Nat) : (now / 60) * 60 ≤ round_up_15 now := by
  unfold round_up_15
  split
  · split <;> omega
  · omega

/-- Rounding up never moves backwards. -/
theorem le_round_up_15 (now : Nat) : now ≤ round_up_15 now := by
  unfold round_up_15
  split
  · split <;> omega
  · omega

/-- The generation loop never starts before business-hours start of the
requested date. -/
theorem slot_start0_lower (date now : Nat) :
    date * 1440 + BUSINESS_HOURS_start ≤ slot_start0 date now := by
  unfold slot_start0
  by_cases hd : date = now / 1440
  · rw [if_pos hd]
    by_cases hr : round_up_15 now % 1440 < BUSINESS_HOURS_start
    · rw [if_pos hr]
    · rw [if_neg hr]
      have h1 := round_up_15_lower now
      unfold BUSINESS_HOURS_start at *
      omega
  · rw [if_neg hd]

/-! ### The booking operation -/

/-- Catalog durations are positive multiples of 15 minutes. -/
theorem APPOINTMENT_TYPES_duration (t : String) (d : Nat)
    (h : APPOINTMENT_TYPES t = some d) : 0 < d ∧ 15 ∣ d := by
  unfold APPOINTMENT_TYPES at h
  split_ifs at h <;> simp only [Option.some.injEq] at h <;> omega

/-- Closed-form case analysis of `book_appointment` for a catalog type. -/
theorem book_appointment_cases (L : Ledger) (now : Nat) (req : BookingRequest)
    (bid code : String) (d : Nat)
    (hd : APPOINTMENT_TYPES req.appointment_type = some d) :
    book_appointment L now req bid code =
      if req.start_dt < now then (L, Except.error BookError.pastDateTime)
      else if is_slot_available L req.start_dt d = false then
        (L, Except.error BookError.slotUnavailable)
      else
        (write_granules L (granule_starts req.start_dt (req.start_dt + d))
            { booking_id := bid, patient := req.patient,
              appointment_type := req.appointment_type, reason := req.reason },
          Except.ok
            { booking_id := bid, status := "confirmed", confirmation_code := code,
              patient := req.patient, appointment_type := req.appointment_type,
              start_dt := req.start_dt, end_dt := req.start_dt + d,
              duration_minutes := d, reason := req.reason }) := by
  unfold book_appointment
  rw [hd]
  dsimp only
  by_cases h1 : req.start_dt < now
  · rw [if_pos h1, if_pos h1]
  · rw [if_neg h1, if_neg h1]
    by_cases h2 : is_slot_available L req.start_dt d = false
    · rw [if_pos (by simp [h2]), if_pos h2]
    · have h2' : is_slot_available L req.start_dt d = true := by
        cases hx : is_slot_available L req.start_dt d
        · exact absurd hx h2
        · rfl
      rw [if_neg (by simp [h2']), if_neg h2]

/-! ### Slot generation, top level -/

/-- On any non-past date, slot generation is the loop from `slot_start0`. -/
theorem generate_time_slots_eq_loop (L : Ledger) (date dur now : Nat)
    (h : ¬ date < now / 1440) :
    generate_time_slots L date dur now =
      slot_loop L (slot_start0 date now) (date * 1440 + BUSINESS_HOURS_end) dur := by
  unfold generate_time_slots
  rw [if_neg h]

/-- Availability of every generated slot is decided by its start key alone. -/
theorem generate_available_eq (L : Ledger) (date dur now : Nat) :
    ∀ s ∈ generate_time_slots L date dur now,
      s.available = ! ledgerContains L s.start_time := by
  intro s hs
  unfold generate_time_slots at hs
  by_cases h : date < now / 1440
  · rw [if_pos h] at hs; simp at hs
  · rw [if_neg h] at hs
    unfold slot_loop at hs
    exact (slot_loop_aux_mem L _ dur _ _ s hs).1

/-! ### Claims -/

/-- C1 (counterexample): with only the granule 09:15 of day 1 occupied, the
generated 30-minute slot 09:00–09:30 of day 1 carries `available = true`
although the occupied granule 09:15 lies inside `[09:00, 09:30)` (indeed
`is_slot_available` is false for that very window): the claimed equivalence
"available iff no granule in `[start, start+duration)` is occupied" fails. -/
theorem c1_counterexample :
    (generate_time_slots c1_ledger 1 30 0).head? =
        some { start_time := 1980, end_time := 2010, available := true }
    ∧ ledgerContains c1_ledger 1995 = true
    ∧ 1980 ≤ 1995 ∧ 1995 < 1980 + 30 ∧ 15 ∣ (1995 - 1980)
    ∧ is_slot_available c1_ledger 1980 30 = false := by
  decide

/-- C1 (amended): for every ledger, date and duration, each candidate slot
produced by `generate_time_slots` is marked available if and only if the
single 15-minute granule at the slot's start time is unoccupied in the
booking ledger; the later granules of `[start, start+duration)` are not
consulted. -/
theorem c1_amended_available_iff_start_granule_free (L : Ledger)
    (date dur now : Nat) :
    ∀ s ∈ generate_time_slots L date dur now,
      s.available = ! ledgerContains L s.start_time :=
  generate_available_eq L date dur now

/-- Witness for the amended C1: the slot 09:00–09:30 of day 1 generated over
`c1_ledger` reports exactly the unoccupancy of its start granule 09:00. -/
theorem c1_amended_witness :
    (({ start_time := 1980, end_time := 2010, available := true } : TimeSlot) ∈
        generate_time_slots c1_ledger 1 30 0)
    ∧ ({ start_time := 1980, end_time := 2010, available := true } : TimeSlot).available
        = ! ledgerContains c1_ledger 1980 :=
  ⟨by decide,
   c1_amended_available_iff_start_granule_free c1_ledger 1 30 0 _ (by decide)⟩

/-- C4: for every date strictly before the current calendar date and every
duration, `generate_time_slots` returns the empty sequence (the embedded
function is total, so no error is signalled). -/
theorem c4_past_date_empty (L : Ledger) (date dur now : Nat)
    (h : date < now / 1440) : generate_time_slots L date dur now = [] := by
  unfold generate_time_slots
  rw [if_pos h]

/-- Witness for C4: day 0 queried when `now` is in day 1 yields no slots. -/
theorem c4_witness :
    (0 : Nat) < 1440 / 1440 ∧ generate_time_slots [] 0 30 1440 = [] :=
  ⟨by decide, c4_past_date_empty [] 0 30 1440 (by decide)⟩

/-- C6 (code divergence at the failing input): with the current time 23:50 of
day 0 and `date` = day 0, the next 15-minute boundary at or after now is
minute 1440 (midnight of day 1), which is at/after business-hours end of day
0 (minute 1020), so the claim requires an empty sequence; the code instead
wraps the boundary past midnight, clamps it back to 09:00 of day 0, and
returns the full day of 16 (already past) slots. -/
theorem c6_midnight_wraparound_divergence :
    round_up_15 1430 = 1440
    ∧ 0 * 1440 + BUSINESS_HOURS_end ≤ 1440
    ∧ (generate_time_slots [] 0 30 1430).length = 16
    ∧ (generate_time_slots [] 0 30 1430).head? =
        some { start_time := 540, end_time := 570, available := true }
    ∧ generate_time_slots [] 0 30 1430 ≠ [] := by
  decide

/-- C7: `is_slot_available` returns true iff none of the 15-minute granule
start points `start + 15k` with `start + 15k < start + duration` is a key
of the occupancy map (arbitrary, not necessarily aligned, start times). -/
theorem c7_available_iff_no_granule_occupied (L : Ledger) (s d : Nat) :
    is_slot_available L s d = true ↔
      ∀ k : Nat, 15 * k < d → ledgerContains L (s + 15 * k) = false := by
  rw [is_slot_available_iff]
  constructor
  · intro h k hk
    exact h (s + 15 * k) (by omega) (by omega) ⟨k, by omega⟩
  · intro h g h1 h2 h3
    obtain ⟨k, hk⟩ := h3
    have hg : g = s + 15 * k := by omega
    rw [hg]
    exact h k (by omega)

/-- C2 (counterexample): on the empty ledger, booking a consultation for day
1 at 09:00 (reserving `[1980, 2010)`) and then a followup for day 1 at 09:20
(window `[2000, 2015)`, misaligned) both succeed, although the two ranges
overlap: the claimed mutual exclusion fails for misaligned start times. -/
theorem c2_counterexample :
    (book_appointment [] 0 c2_req1 "APPT-A" "AAAAAA").2.isOk = true
    ∧ (book_appointment (book_appointment [] 0 c2_req1 "APPT-A" "AAAAAA").1 0
        c2_req2 "APPT-B" "BBBBBB").2.isOk = true
    ∧ APPOINTMENT_TYPES c2_req1.appointment_type = some 30
    ∧ APPOINTMENT_TYPES c2_req2.appointment_type = some 15
    ∧ c2_req1.start_dt < c2_req2.start_dt + 15
    ∧ c2_req2.start_dt < c2_req1.start_dt + 30 := by
  decide

/-- C2 (amended): for two reservation attempts with overlapping ranges,
executed one after the other, at most one succeeds — provided both start
times are aligned to 15-minute boundaries (the counterexample shows the
original unrestricted claim fails for misaligned starts): if the first
booking succeeded and the second, not-in-the-past attempt overlaps it, the
second is rejected with `SlotUnavailable`. -/
theorem c2_amended_aligned_overlap_excluded (L : Ledger) (now : Nat)
    (r1 r2 : BookingRequest) (bid1 cod1 bid2 cod2 : String) (d1 d2 : Nat)
    (L' : Ledger) (resp : BookingResponse)
    (hd1 : APPOINTMENT_TYPES r1.appointment_type = some d1)
    (hd2 : APPOINTMENT_TYPES r2.appointment_type = some d2)
    (ha1 : 15 ∣ r1.start_dt) (ha2 : 15 ∣ r2.start_dt)
    (hperm : now ≤ r2.start_dt)
    (hov1 : r1.start_dt < r2.start_dt + d2)
    (hov2 : r2.start_dt < r1.start_dt + d1)
    (hb1 : book_appointment L now r1 bid1 cod1 = (L', Except.ok resp)) :
    (book_appointment L' now r2 bid2 cod2).2 =
      Except.error BookError.slotUnavailable := by
  obtain ⟨hd1pos, -⟩ := APPOINTMENT_TYPES_duration r1.appointment_type d1 hd1
  obtain ⟨hd2pos, -⟩ := APPOINTMENT_TYPES_duration r2.appointment_type d2 hd2
  rw [book_appointment_cases L now r1 bid1 cod1 d1 hd1] at hb1
  split_ifs at hb1 with h1 h2
  · simp at hb1
  · simp at hb1
  · rw [Prod.mk.injEq] at hb1
    obtain ⟨hL', -⟩ := hb1
    have hcommon : ∃ g : Nat, r1.start_dt ≤ g ∧ g < r1.start_dt + d1 ∧
        15 ∣ (g - r1.start_dt) ∧ r2.start_dt ≤ g ∧ g < r2.start_dt + d2 ∧
        15 ∣ (g - r2.start_dt) := by
      rcases le_total r1.start_dt r2.start_dt with hc | hc
      · exact ⟨r2.start_dt, hc, hov2, by omega, le_rfl, by omega, by omega⟩
      · exact ⟨r1.start_dt, le_rfl, by omega, by omega, hc, hov1, by omega⟩
    obtain ⟨g, hg1, hg2, hg3, hg4, hg5, hg6⟩ := hcommon
    have hcont : ledgerContains L' g = true := by
      rw [← hL']
      exact (ledgerContains_write_granules _ L _ g).2
        (Or.inl ((mem_granule_starts _ _ _).2 ⟨hg1, hg2, hg3⟩))
    have hfalse : is_slot_available L' r2.start_dt d2 = false :=
      is_slot_available_eq_false L' r2.start_dt d2 g hg4 hg5 hg6 hcont
    rw [book_appointment_cases L' now r2 bid2 cod2 d2 hd2]
    rw [if_neg (by omega), if_pos hfalse]

/-- Witness for the amended C2: after the 09:00 consultation of day 1 is
booked, a 15-minute-aligned overlapping followup at 09:15 is rejected with
`SlotUnavailable`. -/
theorem c2_amended_witness :
    (book_appointment
        [(1995, { booking_id := "APPT-A", patient := pA,
                  appointment_type := "consultation", reason := none }),
         (1980, { booking_id := "APPT-A", patient := pA,
                  appointment_type := "consultation", reason := none })]
        0 c2_req3 "APPT-B" "BBBBBB").2 =
      Except.error BookError.slotUnavailable :=
  c2_amended_aligned_overlap_excluded [] 0 c2_req1 c2_req3
    "APPT-A" "AAAAAA" "APPT-B" "BBBBBB" 30 15 _
    { booking_id := "APPT-A", status := "confirmed", confirmation_code := "AAAAAA",
      patient := pA, appointment_type := "consultation", start_dt := 1980,
      end_dt := 2010, duration_minutes := 30, reason := none }
    rfl rfl (by decide) (by decide) (by decide) (by decide) (by decide) rfl

/-- C3 (counterexample): booking a consultation for day 1 at 09:15 (reserving
granules 09:15 and 09:30) and regenerating the 30-minute slots for day 1
leaves the slot 09:00–09:30 — whose range overlaps the reserved granule
09:15 — reported `available = true`: the claimed round-trip property fails
for slots overlapping the reservation other than at their start. -/
theorem c3_counterexample :
    (book_appointment [] 0 c3_req "APPT-C" "CCCCCC").2.isOk = true
    ∧ (generate_time_slots c3_after 1 30 0).head? =
        some { start_time := 1980, end_time := 2010, available := true }
    ∧ ledgerContains c3_after 1995 = true
    ∧ c3_req.start_dt ≤ 1995 ∧ 1995 < c3_req.start_dt + 30
    ∧ 1980 ≤ 1995 ∧ 1995 < 2010 := by
  decide

/-- C3 (amended): after a successful `book_appointment` for some range,
regenerating slots for any date and duration reports `available = false` for
every slot whose start time is one of the reserved granules (start times
`start + 15k` inside the reserved range); slots that overlap the reservation
only at non-start granules may still report `available = true`, as the
counterexample shows. -/
theorem c3_amended_reserved_start_granule_unavailable
    (L : Ledger) (now : Nat) (req : BookingRequest) (bid cod : String)
    (d : Nat) (L' : Ledger) (resp : BookingResponse) (date dur2 now2 : Nat)
    (hd : APPOINTMENT_TYPES req.appointment_type = some d)
    (hb : book_appointment L now req bid cod = (L', Except.ok resp)) :
    ∀ s ∈ generate_time_slots L' date dur2 now2,
      req.start_dt ≤ s.start_time → s.start_time < req.start_dt + d →
      15 ∣ (s.start_time - req.start_dt) → s.available = false := by
  intro s hs hle hlt hdvd
  rw [book_appointment_cases L now req bid cod d hd] at hb
  split_ifs at hb with h1 h2
  · simp at hb
  · simp at hb
  · rw [Prod.mk.injEq] at hb
    obtain ⟨hL', -⟩ := hb
    have hav := generate_available_eq L' date dur2 now2 s hs
    have hc : ledgerContains L' s.start_time = true := by
      rw [← hL']
      exact (ledgerContains_write_granules _ L _ s.start_time).2
        (Or.inl ((mem_granule_starts _ _ _).2 ⟨hle, hlt, hdvd⟩))
    rw [hav, hc]
    rfl

/-- Witness for the amended C3: after booking the 09:15 consultation of day
1, the regenerated slot starting 09:30 (a reserved granule) is unavailable. -/
theorem c3_amended_witness :
    (({ start_time := 2010, end_time := 2040, available := false } : TimeSlot) ∈
        generate_time_slots c3_after 1 30 0)
    ∧ ({ start_time := 2010, end_time := 2040, available := false } : TimeSlot).available
        = false :=
  ⟨by decide,
   c3_amended_reserved_start_granule_unavailable [] 0 c3_req "APPT-C" "CCCCCC"
     30 c3_after
     { booking_id := "APPT-C", status := "confirmed", confirmation_code := "CCCCCC",
       patient := pA, appointment_type := "consultation", start_dt := 1995,
       end_dt := 2025, duration_minutes := 30, reason := none }
     1 30 0 rfl rfl _ (by decide) (by decide) (by decide) (by decide)⟩

/-- C5: for every ledger, valid date on/after today and catalog duration,
every generated slot lies within business hours (`start ≥ business start`,
`start + duration ≤ business end`), consecutive slots are exactly `duration`
minutes apart (step = duration, not granule size), and the sequence is
strictly ascending by start time. -/
theorem c5_slots_in_hours_step_sorted (L : Ledger) (date dur now : Nat)
    (t : String) (_hcat : APPOINTMENT_TYPES t = some dur)
    (hdate : now / 1440 ≤ date) :
    (∀ s ∈ generate_time_slots L date dur now,
        date * 1440 + BUSINESS_HOURS_start ≤ s.start_time ∧
        s.end_time = s.start_time + dur ∧
        s.start_time + dur ≤ date * 1440 + BUSINESS_HOURS_end)
    ∧ List.Chain' (fun a b => b.start_time = a.start_time + dur)
        (generate_time_slots L date dur now)
    ∧ List.Chain' (fun a b : TimeSlot => a.start_time < b.start_time)
        (generate_time_slots L date dur now) := by
  have hnp : ¬ date < now / 1440 := by omega
  rw [generate_time_slots_eq_loop L date dur now hnp]
  unfold slot_loop
  refine ⟨?_, slot_loop_aux_chain_step L _ dur _ _,
    slot_loop_aux_chain_lt L _ dur _ _⟩
  intro s hs
  obtain ⟨-, hle, he, hb⟩ := slot_loop_aux_mem L _ dur _ _ s hs
  exact ⟨le_trans (slot_start0_lower date now) hle, he, hb⟩

/-- Witness for C5, at day 1, consultation duration, empty ledger, `now` at
day-0 midnight. -/
theorem c5_witness :
    (∀ s ∈ generate_time_slots [] 1 30 0,
        1 * 1440 + BUSINESS_HOURS_start ≤ s.start_time ∧
        s.end_time = s.start_time + 30 ∧
        s.start_time + 30 ≤ 1 * 1440 + BUSINESS_HOURS_end)
    ∧ List.Chain' (fun a b => b.start_time = a.start_time + 30)
        (generate_time_slots [] 1 30 0)
    ∧ List.Chain' (fun a b : TimeSlot => a.start_time < b.start_time)
        (generate_time_slots [] 1 30 0) :=
  c5_slots_in_hours_step_sorted [] 1 30 0 "consultation" rfl (by decide)

/-- C8: for a valid appointment type and well-formed datetime,
`book_appointment` fails with `PastDateTime` exactly when the start is
strictly before `now`; fails with `SlotUnavailable` exactly when it is not
in the past but the exact window is not free per `is_slot_available`; and
otherwise succeeds with a confirmed booking. -/
theorem c8_book_outcomes (L : Ledger) (now : Nat) (req : BookingRequest)
    (bid cod : String) (d : Nat)
    (hd : APPOINTMENT_TYPES req.appointment_type = some d) :
    ((book_appointment L now req bid cod).2 = Except.error BookError.pastDateTime
        ↔ req.start_dt < now)
    ∧ ((book_appointment L now req bid cod).2 = Except.error BookError.slotUnavailable
        ↔ now ≤ req.start_dt ∧ is_slot_available L req.start_dt d = false)
    ∧ ((∃ resp : BookingResponse,
          (book_appointment L now req bid cod).2 = Except.ok resp ∧
          resp.status = "confirmed")
        ↔ now ≤ req.start_dt ∧ is_slot_available L req.start_dt d = true) := by
  rw [book_appointment_cases L now req bid cod d hd]
  by_cases h1 : req.start_dt < now
  · rw [if_pos h1]
    refine ⟨by simp [h1], ?_, ?_⟩
    · simp only []
      constructor
      · intro h; simp at h
      · rintro ⟨h, -⟩; omega
    · simp only []
      constructor
      · rintro ⟨resp, h, -⟩; simp at h
      · rintro ⟨h, -⟩; omega
  · rw [if_neg h1]
    by_cases h2 : is_slot_available L req.start_dt d = false
    · rw [if_pos h2]
      refine ⟨?_, by simp [h2]; omega, ?_⟩
      · simp only []
        constructor
        · intro h; simp at h
        · intro h; omega
      · simp only []
        constructor
        · rintro ⟨resp, h, -⟩; simp at h
        · rintro ⟨-, h⟩; rw [h2] at h; exact absurd h (by simp)
    · have h2' : is_slot_available L req.start_dt d = true := by
        cases hx : is_slot_available L req.start_dt d
        · exact absurd hx h2
        · rfl
      rw [if_neg h2]
      refine ⟨?_, ?_, ?_⟩
      · simp only []
        constructor
        · intro h; simp at h
        · intro h; omega
      · simp only []
        constructor
        · intro h; simp at h
        · rintro ⟨-, h⟩; rw [h2'] at h; exact absurd h (by simp)
      · simp only []
        constructor
        · intro _; exact ⟨by omega, h2'⟩
        · intro _; exact ⟨_, rfl, rfl⟩

/-- Witness for C8, at the bookable 09:00 consultation of day 1 on the empty
ledger with `now` at day-0 midnight. -/
theorem c8_witness :
    ((book_appointment [] 0 c2_req1 "APPT-A" "AAAAAA").2
        = Except.error BookError.pastDateTime ↔ c2_req1.start_dt < 0)
    ∧ ((book_appointment [] 0 c2_req1 "APPT-A" "AAAAAA").2
        = Except.error BookError.slotUnavailable
        ↔ 0 ≤ c2_req1.start_dt ∧ is_slot_available [] c2_req1.start_dt 30 = false)
    ∧ ((∃ resp : BookingResponse,
          (book_appointment [] 0 c2_req1 "APPT-A" "AAAAAA").2 = Except.ok resp ∧
          resp.status = "confirmed")
        ↔ 0 ≤ c2_req1.start_dt ∧ is_slot_available [] c2_req1.start_dt 30 = true) :=
  c8_book_outcomes [] 0 c2_req1 "APPT-A" "AAAAAA" 30 rfl

/-- C9: `book_appointment` is all-or-nothing — on any error the ledger is
returned exactly as it was; on success every granule `start + 15k` of the
booked range (`15k < duration`) holds an occupancy record carrying the same
booking identifier and the same patient/appointment/reason payload. -/
theorem c9_all_or_nothing (L : Ledger) (now : Nat) (req : BookingRequest)
    (bid cod : String) (d : Nat)
    (hd : APPOINTMENT_TYPES req.appointment_type = some d) :
    (∀ e : BookError, (book_appointment L now req bid cod).2 = Except.error e →
        (book_appointment L now req bid cod).1 = L)
    ∧ (∀ resp : BookingResponse,
        (book_appointment L now req bid cod).2 = Except.ok resp →
        ∀ k : Nat, 15 * k < d →
          ledgerLookup (book_appointment L now req bid cod).1 (req.start_dt + 15 * k)
            = some { booking_id := bid, patient := req.patient,
                     appointment_type := req.appointment_type,
                     reason := req.reason }) := by
  rw [book_appointment_cases L now req bid cod d hd]
  split_ifs with h1 h2
  · exact ⟨fun e _ => rfl, fun resp h => by simp at h⟩
  · exact ⟨fun e _ => rfl, fun resp h => by simp at h⟩
  · refine ⟨fun e he => by simp at he, fun resp _ k hk => ?_⟩
    exact ledgerLookup_write_granules_of_mem _ L _ _
      ((mem_granule_starts _ _ _).2 ⟨by omega, by omega, ⟨k, by omega⟩⟩)

/-- Witness for C9: after the successful 09:00 consultation booking of day 1,
the second covered granule 09:15 holds the booking's occupancy record. -/
theorem c9_witness :
    ledgerLookup (book_appointment [] 0 c2_req1 "APPT-A" "AAAAAA").1 (1980 + 15 * 1)
      = some { booking_id := "APPT-A", patient := pA,
               appointment_type := "consultation", reason := none } :=
  (c9_all_or_nothing [] 0 c2_req1 "APPT-A" "AAAAAA" 30 rfl).2
    { booking_id := "APPT-A", status := "confirmed", confirmation_code := "AAAAAA",
      patient := pA, appointment_type := "consultation", start_dt := 1980,
      end_dt := 2010, duration_minutes := 30, reason := none }
    rfl 1 (by decide)

/-- C10: `book_appointment` imposes no business-hours constraint — for every
catalog type, any not-in-the-past start whose exact window is free is booked
successfully, with no reference to `BUSINESS_HOURS`; in particular (see the
witness) a 23:00 booking entirely after business-hours end succeeds. -/
theorem c10_book_ignores_business_hours (L : Ledger) (now : Nat)
    (req : BookingRequest) (bid cod : String) (d : Nat)
    (hd : APPOINTMENT_TYPES req.appointment_type = some d)
    (hfuture : now ≤ req.start_dt)
    (hfree : is_slot_available L req.start_dt d = true) :
    (book_appointment L now req bid cod).2 =
      Except.ok
        { booking_id := bid, status := "confirmed",
          confirmation_code := cod, patient := req.patient,
          appointment_type := req.appointment_type, start_dt := req.start_dt,
          end_dt := req.start_dt + d, duration_minutes := d,
          reason := req.reason } := by
  rw [book_appointment_cases L now req bid cod d hd]
  rw [if_neg (by omega), if_neg (by simp [hfree])]

/-- Witness for C10: a 60-minute specialist booking at 23:00 of day 1 — a
window lying entirely at/after business-hours end — succeeds. -/
theorem c10_witness :
    1 * 1440 + BUSINESS_HOURS_end ≤ c10_req.start_dt
    ∧ (book_appointment [] 0 c10_req "APPT-D" "DDDDDD").2 =
        Except.ok
          { booking_id := "APPT-D", status := "confirmed",
            confirmation_code := "DDDDDD", patient := pB,
            appointment_type := "specialist", start_dt := 2820, end_dt := 2880,
            duration_minutes := 60, reason := none } :=
  ⟨by decide,
   c10_book_ignores_business_hours [] 0 c10_req "APPT-D" "DDDDDD" 60 rfl
     (by decide) (by decide)⟩

end MedSched
